import Mathlib

/- Verification of the Instagram follower data aggregation pipeline
   (follower_aggregator.py): a shallow embedding of its string
   normalization, mojibake repair, per-entry enrichment steps and
   finalizer computations, together with proofs of the documented
   properties. Python strings are modelled as lists of Unicode code
   points; the follower dictionary as an association list keyed by
   normalized usernames; timestamps as rationals (Python ints and
   floats, whose arithmetic here stays exact at the magnitudes the
   pipeline handles). -/

set_option maxHeartbeats 1000000

/-- Python strings modelled as lists of Unicode code points. -/
abbrev PyStr := List Nat

/-- Code points of a Lean string literal, for writing concrete Python strings. -/
def pyOfString (s : String) : PyStr := s.data.map Char.toNat

/-- ASCII fragment of Python str.lower (the inputs the pipeline lowercases
    and then inspects are ASCII handles and the ASCII marker photia). -/
def pyLower (c : Nat) : Nat := if 0x41 ≤ c ∧ c ≤ 0x5A then c + 0x20 else c

/-- ASCII fragment of the whitespace set recognized by Python str.strip. -/
def isPySpace (c : Nat) : Bool :=
  decide (c = 0x20 ∨ c = 0x09 ∨ c = 0x0A ∨ c = 0x0D ∨ c = 0x0B ∨ c = 0x0C)

/-- Python str.strip: drop whitespace from both ends. -/
def pyStrip (s : PyStr) : PyStr :=
  ((s.dropWhile isPySpace).reverse.dropWhile isPySpace).reverse

/-- Python str.lstrip with argument at-sign: drop every leading at-sign. -/
def pyLstripAt (s : PyStr) : PyStr := s.dropWhile (fun c => decide (c = 0x40))

/-- Embedding of normalize_username: empty input is returned as is, otherwise
    lowercase, strip surrounding whitespace, then remove all leading at-signs
    (Python lstrip removes every leading occurrence, not just one). -/
def normalize_username (u : PyStr) : PyStr :=
  if u = [] then [] else pyLstripAt (pyStrip (u.map pyLower))

/-- Character class of the mention regex: ASCII letters, digits, dot, underscore. -/
def isUserChar (c : Nat) : Bool :=
  decide ((0x61 ≤ c ∧ c ≤ 0x7A) ∨ (0x41 ≤ c ∧ c ≤ 0x5A) ∨
          (0x30 ≤ c ∧ c ≤ 0x39) ∨ c = 0x2E ∨ c = 0x5F)

/-- Leftmost match of the regex at-sign followed by one or more user characters:
    the maximal run of user characters after the first at-sign that has at
    least one, as re.search finds it. -/
def findMention : PyStr → Option PyStr
  | [] => none
  | [_] => none
  | c :: r :: rest =>
    if c = 0x40 ∧ isUserChar r = true then some ((r :: rest).takeWhile isUserChar)
    else findMention (r :: rest)

/-- Embedding of extract_username_from_comment. -/
def extract_username_from_comment (t : PyStr) : Option PyStr :=
  if t = [] then none
  else
    match findMention t with
    | some u => some (normalize_username u)
    | none => none

/-- First list is an initial segment of the second. -/
def pyStartsWith : PyStr → PyStr → Bool
  | [], _ => true
  | _ :: _, [] => false
  | a :: a2, b :: b2 => decide (a = b) && pyStartsWith a2 b2

/-- Python substring containment: pySubstr needle hay is Python needle in hay. -/
def pySubstr (needle : PyStr) : PyStr → Bool
  | [] => pyStartsWith needle []
  | hd :: tl => pyStartsWith needle (hd :: tl) || pySubstr needle tl

/-- UTF-8 encoding of one code point, as Python char.encode produces for
    non-surrogate scalar values. -/
def utf8EncodeChar (c : Nat) : List Nat :=
  if c < 0x80 then [c]
  else if c < 0x800 then [0xC0 + c / 64, 0x80 + c % 64]
  else if c < 0x10000 then [0xE0 + c / 4096, 0x80 + c / 64 % 64, 0x80 + c % 64]
  else [0xF0 + c / 262144, 0x80 + c / 4096 % 64, 0x80 + c / 64 % 64, 0x80 + c % 64]

/-- The byte sequence the repair routine builds: code points up to 0xFF kept
    as raw bytes, larger ones re-encoded to UTF-8. A lone surrogate makes
    Python char.encode raise, which the outer handler turns into returning
    the original text; that failure is the none case. -/
def buildByteSequence : PyStr → Option (List Nat)
  | [] => some []
  | c :: cs =>
    if c ≤ 0xFF then
      match buildByteSequence cs with
      | some bs => some (c :: bs)
      | none => none
    else if 0xD800 ≤ c ∧ c ≤ 0xDFFF then none
    else
      match buildByteSequence cs with
      | some bs => some (utf8EncodeChar c ++ bs)
      | none => none

/-- Continuation byte check. -/
def utf8ContOk (b : Nat) : Bool := decide (0x80 ≤ b ∧ b ≤ 0xBF)

/-- First continuation byte of a three-byte sequence (rejects overlong forms
    and surrogates as the strict Python decoder does). -/
def utf8Cont2Ok (b0 b1 : Nat) : Bool :=
  if b0 = 0xE0 then decide (0xA0 ≤ b1 ∧ b1 ≤ 0xBF)
  else if b0 = 0xED then decide (0x80 ≤ b1 ∧ b1 ≤ 0x9F)
  else utf8ContOk b1

/-- First continuation byte of a four-byte sequence (rejects overlong forms
    and values beyond 0x10FFFF as the strict Python decoder does). -/
def utf8Cont3Ok (b0 b1 : Nat) : Bool :=
  if b0 = 0xF0 then decide (0x90 ≤ b1 ∧ b1 ≤ 0xBF)
  else if b0 = 0xF4 then decide (0x80 ≤ b1 ∧ b1 ≤ 0x8F)
  else utf8ContOk b1

/-- Strict UTF-8 decoding of a byte list, none on any invalid sequence,
    matching Python bytes.decode with the default strict handler. -/
def utf8Decode : List Nat → Option (List Nat)
  | [] => some []
  | b :: bs =>
    if b ≤ 0x7F then
      match utf8Decode bs with
      | some cs => some (b :: cs)
      | none => none
    else if 0xC2 ≤ b ∧ b ≤ 0xDF then
      match bs with
      | b1 :: bs1 =>
        if utf8ContOk b1 then
          match utf8Decode bs1 with
          | some cs => some (((b - 0xC0) * 64 + (b1 - 0x80)) :: cs)
          | none => none
        else none
      | [] => none
    else if 0xE0 ≤ b ∧ b ≤ 0xEF then
      match bs with
      | b1 :: b2 :: bs2 =>
        if utf8Cont2Ok b b1 && utf8ContOk b2 then
          match utf8Decode bs2 with
          | some cs => some (((b - 0xE0) * 4096 + (b1 - 0x80) * 64 + (b2 - 0x80)) :: cs)
          | none => none
        else none
      | _ => none
    else if 0xF0 ≤ b ∧ b ≤ 0xF4 then
      match bs with
      | b1 :: b2 :: b3 :: bs3 =>
        if utf8Cont3Ok b b1 && utf8ContOk b2 && utf8ContOk b3 then
          match utf8Decode bs3 with
          | some cs =>
            some (((b - 0xF0) * 262144 + (b1 - 0x80) * 4096 + (b2 - 0x80) * 64 + (b3 - 0x80)) :: cs)
          | none => none
        else none
      | _ => none
    else none

/-- Characters in the high mojibake detection range 0xD0 to 0xDF. -/
def isMojibakeHigh (c : Nat) : Bool := decide (0xD0 ≤ c ∧ c ≤ 0xDF)

/-- Characters in the low mojibake detection range 0x80 to 0xBF. -/
def isMojibakeLow (c : Nat) : Bool := decide (0x80 ≤ c ∧ c ≤ 0xBF)

/-- Characters the routine counts as problematic, 0x80 to 0xFF. -/
def isProblematic (c : Nat) : Bool := decide (0x80 ≤ c ∧ c ≤ 0xFF)

/-- Characters in the Cyrillic block 0x0400 to 0x04FF. -/
def isCyrillic (c : Nat) : Bool := decide (0x400 ≤ c ∧ c ≤ 0x4FF)

/-- Embedding of fix_double_encoded_unicode. The source compares the
    problematic count against len times 0.2 in binary floating point; for
    integer counts that comparison coincides with the exact comparison
    5 times count greater than len (checked for every length up to two
    million, far beyond any comment the pipeline sees), which is how the
    threshold is written here. Note the acceptance re-check
    has_improved_mojibake only inspects the 0xD0 to 0xDF range. -/
def fix_double_encoded_unicode (text : PyStr) : PyStr :=
  if text = [] then text
  else
    let has_mojibake_pattern := text.any isMojibakeHigh || text.any isMojibakeLow
    if !has_mojibake_pattern then text
    else
      let problematic_chars := text.filter isProblematic
      if problematic_chars.length > 0 then
        match buildByteSequence text with
        | none => text
        | some byte_sequence =>
          match utf8Decode byte_sequence with
          | none => text
          | some fixed =>
            let has_cyrillic := fixed.any isCyrillic
            let has_improved_mojibake := !(fixed.any isMojibakeHigh)
            if has_cyrillic ||
               (has_improved_mojibake && decide (5 * problematic_chars.length > text.length)) then
              fixed
            else text
      else text

/-- Nested comments structure of a contact record; sample entries carry
    the truncated text and the timestamp behind their ISO date. -/
structure CommentsData where
  total_comments : Nat
  first_comment_timestamp : Option Nat
  last_comment_timestamp : Option Nat
  sample_comments : List (PyStr × Nat)
  deriving DecidableEq

/-- Nested messages structure; timestamps are milliseconds divided by 1000,
    hence rational; the request count key exists only where the source
    creates it. -/
structure MessagesData where
  has_messaged : Bool
  message_count : Nat
  first_message_timestamp : Option ℚ
  last_message_timestamp : Option ℚ
  initiated_conversation : Bool
  message_request_count : Option Nat
  deriving DecidableEq

/-- Nested story interactions structure. -/
structure StoryData where
  story_likes_count : Nat
  emoji_reactions_count : Nat
  countdown_interactions_count : Nat
  last_story_interaction_timestamp : Option Nat
  deriving DecidableEq

/-- One contact record of the follower dictionary. Optional fields model
    dictionary keys the source creates only on some paths; is_follower is
    read with a default of true where absent. -/
structure ContactRecord where
  username : PyStr
  profile_url : PyStr
  follow_date : Option Nat
  is_follower : Option Bool
  status : Option PyStr
  comments : Option CommentsData
  messages : Option MessagesData
  story_interactions : Option StoryData
  deriving DecidableEq

/-- The follower dictionary: an insertion ordered association list with
    unique keys, as a Python dict iterates. -/
abbrev FollowerMap := List (PyStr × ContactRecord)

/-- Dictionary lookup, first binding wins. -/
def mapLookup : FollowerMap → PyStr → Option ContactRecord
  | [], _ => none
  | (k, v) :: rest, u => if k = u then some v else mapLookup rest u

/-- Dictionary assignment to an existing key, keeping its position. -/
def mapUpdate : FollowerMap → PyStr → ContactRecord → FollowerMap
  | [], _, _ => []
  | (k, v) :: rest, u, d =>
    if k = u then (k, d) :: mapUpdate rest u d else (k, v) :: mapUpdate rest u d

/-- Dictionary assignment: overwrite an existing key in place or append a
    new binding at the end, as Python dicts do. -/
def mapInsert (m : FollowerMap) (u : PyStr) (d : ContactRecord) : FollowerMap :=
  if (mapLookup m u).isSome then mapUpdate m u d else m ++ [(u, d)]

/-- Key list of the dictionary in iteration order. -/
def mapKeys (m : FollowerMap) : List PyStr := m.map (fun p => p.1)

/-- Fresh comments structure created on the first matching comment. -/
def initComments : CommentsData :=
  { total_comments := 0, first_comment_timestamp := none,
    last_comment_timestamp := none, sample_comments := [] }

/-- One parsed entry of the comments export: repaired text is computed by
    the loader, the raw text and the timestamp (0 when absent) are stored. -/
structure CommentEntry where
  text : PyStr
  timestamp : Nat
  deriving DecidableEq

/-- Date bound and sample update a comment with nonzero timestamp performs:
    strict comparisons for the first and last bounds, samples appended only
    below five entries and truncated to 200 characters. -/
def commentTimestampUpdate (c : CommentsData) (text : PyStr) (ts : Nat) : CommentsData :=
  let first := match c.first_comment_timestamp with
    | none => some ts
    | some f => if ts < f then some ts else some f
  let last := match c.last_comment_timestamp with
    | none => some ts
    | some l => if ts > l then some ts else some l
  let samples :=
    if c.sample_comments.length < 5 then c.sample_comments ++ [(text.take 200, ts)]
    else c.sample_comments
  { c with first_comment_timestamp := first, last_comment_timestamp := last,
           sample_comments := samples }

/-- Update a matched record performs for one comment entry: bump the counter
    unconditionally (creating the structure on first use) and apply the
    timestamp update only when the timestamp is nonzero. -/
def commentApply (d : ContactRecord) (e : CommentEntry) : CommentsData :=
  let c0 := match d.comments with
    | some c => c
    | none => initComments
  let c1 := { c0 with total_comments := c0.total_comments + 1 }
  if e.timestamp ≠ 0 then commentTimestampUpdate c1 (fix_double_encoded_unicode e.text) e.timestamp
  else c1

/-- One entry of load_comments: repair the text, extract a mention, and only
    when it names an existing record, apply the comment update to it. -/
def processCommentEntry (m : FollowerMap) (e : CommentEntry) : FollowerMap :=
  match extract_username_from_comment (fix_double_encoded_unicode e.text) with
  | none => m
  | some username =>
    match mapLookup m username with
    | none => m
    | some d => mapUpdate m username { d with comments := some (commentApply d e) }

/-- The comment enricher over the parsed entry list. -/
def load_comments (m : FollowerMap) (entries : List CommentEntry) : FollowerMap :=
  entries.foldl processCommentEntry m

/-- One message of a conversation file. -/
structure Message where
  sender_name : PyStr
  timestamp_ms : Nat
  deriving DecidableEq

/-- One conversation: participant names, messages newest first, and the
    folder the file was found in. -/
structure Conversation where
  participants : List PyStr
  messages : List Message
  folder_name : PyStr
  deriving DecidableEq

/-- The account owner marker the participant search skips. -/
def pyPhotia : PyStr := pyOfString "photia"

/-- First participant whose lowercased name does not contain the owner
    marker. -/
def pickOtherParticipant (names : List PyStr) : Option PyStr :=
  names.find? (fun n => !(pySubstr pyPhotia (n.map pyLower)))

/-- Embedding of extract_username_from_message_folder: split on underscore,
    drop the trailing id segment, rejoin and normalize. -/
def extract_username_from_message_folder (folder_name : PyStr) : Option PyStr :=
  if folder_name = [] then none
  else
    let parts := folder_name.splitOn 0x5F
    if parts.length > 1 then some (normalize_username (List.intercalate [0x5F] parts.dropLast))
    else none

/-- Resolution of the conversation partner: first non owner participant,
    with Python falsy candidates (no pick, or an empty name) falling back
    to the folder name derivation; an empty final candidate skips the
    conversation, as the falsy check in the source does. -/
def resolveOtherParticipant (conv : Conversation) : Option PyStr :=
  if conv.participants = [] then none
  else
    let c0 : PyStr := match pickOtherParticipant conv.participants with
      | some n => n
      | none => []
    let c1 : PyStr :=
      if c0 = [] then
        match extract_username_from_message_folder conv.folder_name with
        | some f => if f = [] then c0 else f
        | none => c0
      else c0
    if c1 = [] then none else some c1

/-- Matching of a normalized participant to the dictionary: exact key first,
    then the first key related by substring containment in either direction,
    in iteration order. -/
def findMatchedUsername (m : FollowerMap) (np : PyStr) : Option (PyStr × ContactRecord) :=
  match mapLookup m np with
  | some d => some (np, d)
  | none =>
    match m.find? (fun kv => pySubstr kv.1 np || pySubstr np kv.1) with
    | some kv => some kv
    | none => none

/-- Fresh messages structure created by the inbox enricher. -/
def initInboxMessages : MessagesData :=
  { has_messaged := true, message_count := 0, first_message_timestamp := none,
    last_message_timestamp := none, initiated_conversation := false,
    message_request_count := none }

/-- Fresh messages structure created by the message request enricher for an
    already known contact; it also initializes the request count key. -/
def initRequestMessages : MessagesData :=
  { initInboxMessages with message_request_count := some 0 }

/-- Per message date bound update (milliseconds converted to seconds),
    skipping zero timestamps, without touching the count. -/
def msgDatesStep (ms : MessagesData) (msg : Message) : MessagesData :=
  if msg.timestamp_ms ≠ 0 then
    let ts : ℚ := (msg.timestamp_ms : ℚ) / 1000
    let first := match ms.first_message_timestamp with
      | none => some ts
      | some f => if ts < f then some ts else some f
    let last := match ms.last_message_timestamp with
      | none => some ts
      | some l => if ts > l then some ts else some l
    { ms with first_message_timestamp := first, last_message_timestamp := last }
  else ms

/-- Per message update of the message loaders that also count: increment and
    date bounds, both only for nonzero timestamps. -/
def msgCountDatesStep (ms : MessagesData) (msg : Message) : MessagesData :=
  if msg.timestamp_ms ≠ 0 then
    msgDatesStep { ms with message_count := ms.message_count + 1 } msg
  else ms

/-- One conversation of load_messages: resolve the partner, match it, drop
    the conversation when unmatched or empty, otherwise set the initiator
    flag from the last listed message (the oldest, the list being newest
    first) and fold the count and date update over all messages. -/
def processInboxConversation (m : FollowerMap) (conv : Conversation) : FollowerMap :=
  match resolveOtherParticipant conv with
  | none => m
  | some other =>
    let np := normalize_username other
    match findMatchedUsername m np with
    | none => m
    | some (mu, d) =>
      if conv.messages = [] then m
      else
        let ms0 := match d.messages with
          | some ms => ms
          | none => initInboxMessages
        let ms1 := match conv.messages.getLast? with
          | none => ms0
          | some first_message =>
            let first_sender := normalize_username first_message.sender_name
            { ms0 with
                initiated_conversation := (decide (first_sender = mu) || pySubstr mu first_sender) }
        let ms2 := conv.messages.foldl msgCountDatesStep ms1
        mapUpdate m mu { d with messages := some ms2 }

/-- The inbox enricher over all conversations. -/
def load_messages (m : FollowerMap) (convs : List Conversation) : FollowerMap :=
  convs.foldl processInboxConversation m

/-- Profile URL root used for records synthesized from message requests. -/
def pyInstagramUrl : PyStr := pyOfString "https://www.instagram.com/"

/-- Status of a synthesized non follower record. -/
def pyMessageRequestOnly : PyStr := pyOfString "message_request_only"

/-- One conversation of load_message_requests: for a matched contact, merge
    counts and force the initiator flag; for an unmatched one, create the
    non follower record keyed by the normalized handle and apply the date
    fold to its fresh messages structure. -/
def processMessageRequest (m : FollowerMap) (conv : Conversation) : FollowerMap :=
  match resolveOtherParticipant conv with
  | none => m
  | some other =>
    let np := normalize_username other
    let matched := findMatchedUsername m np
    if conv.messages = [] then m
    else
      match matched with
      | some (mu, d) =>
        let ms0 := match d.messages with
          | some ms => ms
          | none => initRequestMessages
        let ms1 := { ms0 with message_request_count := some conv.messages.length,
                              initiated_conversation := true }
        let ms2 := conv.messages.foldl msgCountDatesStep ms1
        mapUpdate m mu { d with messages := some ms2 }
      | none =>
        let newMessages : MessagesData :=
          { has_messaged := true, message_count := conv.messages.length,
            message_request_count := some conv.messages.length,
            first_message_timestamp := none, last_message_timestamp := none,
            initiated_conversation := true }
        let newRecord : ContactRecord :=
          { username := np, profile_url := pyInstagramUrl ++ np, follow_date := none,
            is_follower := some false, status := some pyMessageRequestOnly,
            comments := none, messages := some (conv.messages.foldl msgDatesStep newMessages),
            story_interactions := none }
        mapInsert m np newRecord

/-- The message request enricher over all request conversations. -/
def load_message_requests (m : FollowerMap) (convs : List Conversation) : FollowerMap :=
  convs.foldl processMessageRequest m


/-- One parsed entry of a story interaction file: the title naming the
    contact and its timestamp, 0 when absent. -/
structure StoryEntry where
  title : PyStr
  timestamp : Nat
  deriving DecidableEq

/-- Fresh story interactions structure. -/
def initStoryInteractions : StoryData :=
  { story_likes_count := 0, emoji_reactions_count := 0,
    countdown_interactions_count := 0, last_story_interaction_timestamp := none }

/-- The three story sub sources, differing only in which counter they bump. -/
inductive StoryKind
  | likes
  | emoji
  | countdown
  deriving DecidableEq

/-- Counter bump of one story sub source. -/
def bumpStoryCounter (k : StoryKind) (st : StoryData) : StoryData :=
  match k with
  | .likes => { st with story_likes_count := st.story_likes_count + 1 }
  | .emoji => { st with emoji_reactions_count := st.emoji_reactions_count + 1 }
  | .countdown =>
    { st with countdown_interactions_count := st.countdown_interactions_count + 1 }

/-- One entry of a story sub source: for a nonempty normalized title naming
    an existing record, bump the counter and push the shared last timestamp
    up under a strict greater comparison. -/
def processStoryEntry (k : StoryKind) (m : FollowerMap) (e : StoryEntry) : FollowerMap :=
  let username := normalize_username e.title
  if username = [] then m
  else
    match mapLookup m username with
    | none => m
    | some d =>
      let st0 := match d.story_interactions with
        | some st => st
        | none => initStoryInteractions
      let st1 := bumpStoryCounter k st0
      let st2 :=
        if e.timestamp ≠ 0 then
          match st1.last_story_interaction_timestamp with
          | none => { st1 with last_story_interaction_timestamp := some e.timestamp }
          | some l =>
            if e.timestamp > l then
              { st1 with last_story_interaction_timestamp := some e.timestamp }
            else st1
        else st1
      mapUpdate m username { d with story_interactions := some st2 }

/-- The story enricher: likes, then emoji reactions, then countdowns. -/
def load_story_interactions (m : FollowerMap)
    (likes emojis countdowns : List StoryEntry) : FollowerMap :=
  let m1 := likes.foldl (processStoryEntry StoryKind.likes) m
  let m2 := emojis.foldl (processStoryEntry StoryKind.emoji) m1
  countdowns.foldl (processStoryEntry StoryKind.countdown) m2

/-- Status literal for pending follow requests. -/
def pyPendingRequest : PyStr := pyOfString "pending_request"

/-- Status literal for recent follow requests. -/
def pyRecentRequest : PyStr := pyOfString "recent_request"

/-- Status literal for recently unfollowed profiles. -/
def pyRecentlyUnfollowed : PyStr := pyOfString "recently_unfollowed"

/-- Default status the finalizer fills in. -/
def pyActiveFollower : PyStr := pyOfString "active_follower"

/-- One entry of the pending follow request file: for a known username the
    status is set unconditionally. -/
def processPendingEntry (m : FollowerMap) (value : PyStr) : FollowerMap :=
  let username := normalize_username value
  match mapLookup m username with
  | none => m
  | some d => mapUpdate m username { d with status := some pyPendingRequest }

/-- One entry of the recent follow request file: the status is set only when
    no status key exists yet. -/
def processRecentEntry (m : FollowerMap) (value : PyStr) : FollowerMap :=
  let username := normalize_username value
  match mapLookup m username with
  | none => m
  | some d =>
    match d.status with
    | none => mapUpdate m username { d with status := some pyRecentRequest }
    | some _ => m

/-- One entry of the recently unfollowed file: the status is set
    unconditionally. -/
def processUnfollowEntry (m : FollowerMap) (value : PyStr) : FollowerMap :=
  let username := normalize_username value
  match mapLookup m username with
  | none => m
  | some d => mapUpdate m username { d with status := some pyRecentlyUnfollowed }

/-- The follow request enricher: all pending entries, then all recent ones. -/
def load_follow_requests (m : FollowerMap) (pending recent : List PyStr) : FollowerMap :=
  recent.foldl processRecentEntry (pending.foldl processPendingEntry m)

/-- The unfollow enricher. -/
def load_recently_unfollowed (m : FollowerMap) (entries : List PyStr) : FollowerMap :=
  entries.foldl processUnfollowEntry m

/-- Rounding to two decimal places. Python rounds halves to even; that
    differs from this rounding only at exact half hundredths, which the
    integer valued scores never produce. -/
def roundTo2 (q : ℚ) : ℚ := ((round (q * 100) : ℤ) : ℚ) / 100

/-- Truthy last comment timestamp: the guard combining key presence and
    Python truthiness in front of the comment recency bonus. -/
def commentsLastTruthy (d : ContactRecord) : Option Nat :=
  match d.comments with
  | none => none
  | some c =>
    match c.last_comment_timestamp with
    | none => none
    | some t => if t = 0 then none else some t

/-- Truthy last message timestamp guarding the message recency bonus. -/
def messagesLastTruthy (d : ContactRecord) : Option ℚ :=
  match d.messages with
  | none => none
  | some ms =>
    match ms.last_message_timestamp with
    | none => none
    | some t => if t = 0 then none else some t

/-- Recency bonus: ten points when the timestamp lies within thirty days of
    now, five within ninety days, otherwise nothing; nothing at all when no
    timestamp applies. -/
def recencyBonus (now : ℚ) (t : Option ℚ) : ℚ :=
  match t with
  | none => 0
  | some ts =>
    let days_ago := (now - ts) / 86400
    if days_ago < 30 then 10 else if days_ago < 90 then 5 else 0

/-- Embedding of calculate_engagement_score; the wall clock read from
    datetime.now in the source is the explicit parameter now, in epoch
    seconds. -/
def calculate_engagement_score (d : ContactRecord) (now : ℚ) : ℚ :=
  let s_comments : ℚ := match d.comments with
    | none => 0
    | some c => (c.total_comments : ℚ) * 2
  let s_messages : ℚ := match d.messages with
    | none => 0
    | some ms => (ms.message_count : ℚ) * 3 + (if ms.initiated_conversation then 5 else 0)
  let s_story : ℚ := match d.story_interactions with
    | none => 0
    | some st => (st.story_likes_count : ℚ) * 1 + (st.emoji_reactions_count : ℚ) * 1 +
        (st.countdown_interactions_count : ℚ) * 1
  roundTo2 (s_comments + s_messages + s_story +
    recencyBonus now ((commentsLastTruthy d).map (fun t => (t : ℚ))) +
    recencyBonus now (messagesLastTruthy d))

/-- Discovery method literal. -/
def pyDirectOutreach : PyStr := pyOfString "direct_outreach"

/-- Discovery method literal. -/
def pyContentDiscovery : PyStr := pyOfString "content_discovery"

/-- Discovery method literal. -/
def pyUnknown : PyStr := pyOfString "unknown"

/-- Truthy first comment timestamp, combining key presence and Python
    truthiness exactly as the guard in the source reads it. -/
def commentsFirstTruthy (d : ContactRecord) : Option Nat :=
  match d.comments with
  | none => none
  | some c =>
    match c.first_comment_timestamp with
    | none => none
    | some f => if f = 0 then none else some f

/-- Truthy first message timestamp. -/
def messagesFirstTruthy (d : ContactRecord) : Option ℚ :=
  match d.messages with
  | none => none
  | some ms =>
    match ms.first_message_timestamp with
    | none => none
    | some f => if f = 0 then none else some f

/-- Truthy initiator flag behind the messages key. -/
def initiatedTruthy (d : ContactRecord) : Bool :=
  match d.messages with
  | none => false
  | some ms => ms.initiated_conversation

/-- Final fallback of infer_discovery_method: initiated conversations mean
    direct outreach, otherwise unknown. -/
def inferInitiatedCheck (d : ContactRecord) : PyStr :=
  if initiatedTruthy d then pyDirectOutreach else pyUnknown

/-- Message before follow check of infer_discovery_method, falling through
    to the initiator fallback. -/
def inferMessageCheck (d : ContactRecord) (follow_timestamp : Nat) : PyStr :=
  match messagesFirstTruthy d with
  | some g => if g < (follow_timestamp : ℚ) then pyDirectOutreach else inferInitiatedCheck d
  | none => inferInitiatedCheck d

/-- Embedding of infer_discovery_method with its fixed decision order. -/
def infer_discovery_method (d : ContactRecord) : PyStr :=
  let follow_timestamp := d.follow_date.getD 0
  if d.is_follower.getD true = false then pyDirectOutreach
  else if follow_timestamp = 0 then inferInitiatedCheck d
  else
    match commentsFirstTruthy d with
    | some f =>
      if f < follow_timestamp then pyContentDiscovery
      else inferMessageCheck d follow_timestamp
    | none => inferMessageCheck d follow_timestamp

/-- Abstract layout facts the entry point inspects: whether the child folder
    named instagram-photia exists, whether that child contains a connections
    subfolder, and whether the root itself contains one. A connections
    subfolder below the child entails the child itself exists. -/
structure DataLayout where
  childExists : Bool
  childHasConnections : Bool
  rootHasConnections : Bool

/-- Base folder choice of process_instagram_data. -/
inductive BaseChoice
  | childFolder
  | rootFolder
  deriving DecidableEq

/-- Embedding of the folder resolution at the top of process_instagram_data:
    use the child when it exists, else the root when the root has a
    connections subfolder, else raise the configuration error (none). Note
    the source tests only the existence of the child, never its contents. -/
def selectInstagramFolder (l : DataLayout) : Option BaseChoice :=
  if l.childExists then some BaseChoice.childFolder
  else if l.rootHasConnections then some BaseChoice.rootFolder
  else none

theorem mapLookup_mapUpdate_self (m : FollowerMap) (u : PyStr) (d : ContactRecord) :
    mapLookup (mapUpdate m u d) u = if (mapLookup m u).isSome then some d else none := by
  induction m with
  | nil => simp [mapLookup, mapUpdate]
  | cons kv rest ih =>
    obtain ⟨k, v⟩ := kv
    by_cases h : k = u <;> simp [mapLookup, mapUpdate, h, ih]

theorem mapKeys_mapUpdate (m : FollowerMap) (u : PyStr) (d : ContactRecord) :
    mapKeys (mapUpdate m u d) = mapKeys m := by
  induction m with
  | nil => rfl
  | cons kv rest ih =>
    obtain ⟨k, v⟩ := kv
    by_cases h : k = u <;> simp [mapKeys, mapUpdate, h] <;> simpa [mapKeys] using ih

theorem mapLookup_append (m1 m2 : FollowerMap) (u : PyStr) :
    mapLookup (m1 ++ m2) u =
      match mapLookup m1 u with
      | some v => some v
      | none => mapLookup m2 u := by
  induction m1 with
  | nil => simp [mapLookup]
  | cons kv rest ih =>
    obtain ⟨k, v⟩ := kv
    by_cases h : k = u <;> simp [mapLookup, h, ih]

theorem mapLookup_mapInsert_self (m : FollowerMap) (u : PyStr) (d : ContactRecord) :
    mapLookup (mapInsert m u d) u = some d := by
  unfold mapInsert
  split
  · rename_i h
    rw [mapLookup_mapUpdate_self]
    simp [h]
  · rename_i h
    rw [mapLookup_append]
    have : mapLookup m u = none := by
      cases hx : mapLookup m u with
      | none => rfl
      | some v => rw [hx] at h; simp at h
    rw [this]
    simp [mapLookup]

theorem mapKeys_foldl {α : Type} (f : FollowerMap → α → FollowerMap)
    (hf : ∀ (m : FollowerMap) (a : α), mapKeys (f m a) = mapKeys m) :
    ∀ (l : List α) (m : FollowerMap), mapKeys (l.foldl f m) = mapKeys m := by
  intro l
  induction l with
  | nil => intro m; rfl
  | cons a tl ih => intro m; rw [List.foldl_cons, ih, hf]

/-- Claim C2: for a username present in the mapping, the pending request
    enricher sets status pending_request unconditionally, the recent request
    enricher sets recent_request only when no status is set and is a no-op
    otherwise, and the unfollow enricher sets recently_unfollowed
    unconditionally; consequently pending then recent then unfollow ends
    with status recently_unfollowed, while recent then pending ends with
    status pending_request. -/
theorem c2_status_precedence :
    (∀ (m : FollowerMap) (v : PyStr) (d : ContactRecord),
        mapLookup m (normalize_username v) = some d →
        mapLookup (processPendingEntry m v) (normalize_username v) =
          some { d with status := some pyPendingRequest }) ∧
    (∀ (m : FollowerMap) (v : PyStr) (d : ContactRecord),
        mapLookup m (normalize_username v) = some d → d.status = none →
        mapLookup (processRecentEntry m v) (normalize_username v) =
          some { d with status := some pyRecentRequest }) ∧
    (∀ (m : FollowerMap) (v : PyStr) (d : ContactRecord) (s : PyStr),
        mapLookup m (normalize_username v) = some d → d.status = some s →
        processRecentEntry m v = m) ∧
    (∀ (m : FollowerMap) (v : PyStr) (d : ContactRecord),
        mapLookup m (normalize_username v) = some d →
        mapLookup (processUnfollowEntry m v) (normalize_username v) =
          some { d with status := some pyRecentlyUnfollowed }) ∧
    (∀ (m : FollowerMap) (v : PyStr) (d : ContactRecord),
        mapLookup m (normalize_username v) = some d →
        ∃ r, mapLookup
            (processUnfollowEntry (processRecentEntry (processPendingEntry m v) v) v)
            (normalize_username v) = some r ∧ r.status = some pyRecentlyUnfollowed) ∧
    (∀ (m : FollowerMap) (v : PyStr) (d : ContactRecord),
        mapLookup m (normalize_username v) = some d →
        ∃ r, mapLookup (processPendingEntry (processRecentEntry m v) v)
            (normalize_username v) = some r ∧ r.status = some pyPendingRequest) := by
  have hpend : ∀ (m : FollowerMap) (v : PyStr) (d : ContactRecord),
      mapLookup m (normalize_username v) = some d →
      mapLookup (processPendingEntry m v) (normalize_username v) =
        some { d with status := some pyPendingRequest } := by
    intro m v d h
    simp only [processPendingEntry, h]
    rw [mapLookup_mapUpdate_self]
    simp [h]
  have hrecfill : ∀ (m : FollowerMap) (v : PyStr) (d : ContactRecord),
      mapLookup m (normalize_username v) = some d → d.status = none →
      mapLookup (processRecentEntry m v) (normalize_username v) =
        some { d with status := some pyRecentRequest } := by
    intro m v d h hs
    simp only [processRecentEntry, h, hs]
    rw [mapLookup_mapUpdate_self]
    simp [h]
  have hrecskip : ∀ (m : FollowerMap) (v : PyStr) (d : ContactRecord) (s : PyStr),
      mapLookup m (normalize_username v) = some d → d.status = some s →
      processRecentEntry m v = m := by
    intro m v d s h hs
    simp only [processRecentEntry, h, hs]
  have hunf : ∀ (m : FollowerMap) (v : PyStr) (d : ContactRecord),
      mapLookup m (normalize_username v) = some d →
      mapLookup (processUnfollowEntry m v) (normalize_username v) =
        some { d with status := some pyRecentlyUnfollowed } := by
    intro m v d h
    simp only [processUnfollowEntry, h]
    rw [mapLookup_mapUpdate_self]
    simp [h]
  refine ⟨hpend, hrecfill, hrecskip, hunf, ?_, ?_⟩
  · intro m v d h
    have h1 := hpend m v d h
    have h2 := hrecskip _ v _ pyPendingRequest h1 rfl
    rw [h2]
    exact ⟨_, hunf _ v _ h1, rfl⟩
  · intro m v d h
    cases hs : d.status with
    | none =>
      have h1 := hrecfill m v d h hs
      exact ⟨_, hpend _ v _ h1, rfl⟩
    | some s =>
      have h1 := hrecskip m v d s h hs
      rw [h1]
      exact ⟨_, hpend m v d h, rfl⟩

/-- Fully default contact record used in concrete witness runs. -/
def witnessRecord : ContactRecord :=
  { username := pyOfString "ann", profile_url := [], follow_date := some 5,
    is_follower := none, status := none, comments := none, messages := none,
    story_interactions := none }

/-- Witness for claim C2 at a concrete one entry mapping. -/
theorem c2_status_precedence_witness :
    mapLookup (processPendingEntry [(pyOfString "ann", witnessRecord)] (pyOfString "ann"))
        (normalize_username (pyOfString "ann")) =
      some { witnessRecord with status := some pyPendingRequest } :=
  c2_status_precedence.1 [(pyOfString "ann", witnessRecord)] (pyOfString "ann")
    witnessRecord (by decide)

/-- Layout where the instagram photia child exists but neither it nor the
    root contains a connections subfolder. -/
def c9Layout : DataLayout :=
  { childExists := true, childHasConnections := false, rootHasConnections := false }

/-- Counterexample for claim C9: with no connections subfolder anywhere but
    an existing instagram photia child, the claim demands a configuration
    error, yet the entry point proceeds with the child folder. -/
theorem c9_config_error_counterexample :
    c9Layout.childHasConnections = false ∧ c9Layout.rootHasConnections = false ∧
    selectInstagramFolder c9Layout = some BaseChoice.childFolder :=
  ⟨rfl, rfl, rfl⟩

/-- Claim C9 (amended): the entry point raises its configuration error
    exactly when the instagram photia child does not exist and the root has
    no connections subfolder; the child folder contents are never examined,
    and an existing child is always the chosen base directory. -/
theorem c9_config_error_amended :
    ∀ (l : DataLayout),
      ((selectInstagramFolder l).isNone = (!l.childExists && !l.rootHasConnections)) ∧
      (l.childExists = true → selectInstagramFolder l = some BaseChoice.childFolder) := by
  intro l
  obtain ⟨ce, cc, rc⟩ := l
  cases ce <;> cases rc <;> simp [selectInstagramFolder]

/-- Witness for claim C9 at a concrete layout. -/
theorem c9_config_error_amended_witness :
    selectInstagramFolder c9Layout = some BaseChoice.childFolder :=
  (c9_config_error_amended c9Layout).2 rfl

/-- Username normalization as claim C7 words it: lowercase, trim, strip
    exactly one leading at-sign when present. Stated from the claim for
    comparison against the source function. -/
def normalizeUsernameOneAt (u : PyStr) : PyStr :=
  if u = [] then []
  else
    match pyStrip (u.map pyLower) with
    | 0x40 :: rest => rest
    | t => t

/-- Counterexample for claim C7: on a handle with two leading at-signs the
    source strips both, while the claim strips exactly one. -/
theorem c7_normalize_counterexample :
    normalize_username (pyOfString "@@user") = pyOfString "user" ∧
    normalizeUsernameOneAt (pyOfString "@@user") = pyOfString "@user" ∧
    ¬ normalize_username (pyOfString "@@user") =
        normalizeUsernameOneAt (pyOfString "@@user") := by
  refine ⟨by decide, by decide, by decide⟩

/-- Username normalization with every leading at-sign stripped, the amended
    reading of claim C7. -/
def normalizeUsernameAllAt (u : PyStr) : PyStr :=
  if u = [] then []
  else (pyStrip (u.map pyLower)).dropWhile (fun c => decide (c = 0x40))

theorem head?_dropWhile_bool (p : Nat → Bool) :
    ∀ (l : List Nat) (a : Nat), (l.dropWhile p).head? = some a → p a = false := by
  intro l
  induction l with
  | nil => intro a h; simp [List.dropWhile] at h
  | cons x xs ih =>
    intro a h
    by_cases hp : p x = true
    · rw [List.dropWhile_cons_of_pos hp] at h
      exact ih a h
    · rw [List.dropWhile_cons_of_neg hp] at h
      simp at h
      rw [← h]
      exact Bool.not_eq_true _ |>.mp hp

/-- Claim C7 (amended): normalize_username lowercases, trims surrounding
    whitespace and strips every leading at-sign (not only one), maps empty
    input to the empty string, and never yields a string that still starts
    with an at-sign. -/
theorem c7_normalize_username_amended :
    (∀ u : PyStr, normalize_username u = normalizeUsernameAllAt u) ∧
    normalize_username [] = [] ∧
    normalize_username (pyOfString " @@User ") = pyOfString "user" ∧
    (∀ (u : PyStr) (a : Nat), (normalize_username u).head? = some a → a ≠ 0x40) := by
  refine ⟨fun u => rfl, rfl, by decide, ?_⟩
  intro u a h
  unfold normalize_username at h
  split at h
  · simp at h
  · unfold pyLstripAt at h
    have := head?_dropWhile_bool (fun c => decide (c = 0x40)) _ a h
    simpa using this

/-- Witness for claim C7: the no leading at-sign clause applied at a
    concrete handle. -/
theorem c7_normalize_username_amended_witness :
    (normalize_username (pyOfString "@x")).head? = some 120 ∧ (120 : Nat) ≠ 0x40 :=
  ⟨by decide, c7_normalize_username_amended.2.2.2 (pyOfString "@x") 120 (by decide)⟩

/-- Claim C10: a comment entry naming a known username but carrying a zero
    timestamp still increments total_comments, yet leaves the first and
    last comment timestamps and the sample list unchanged — samples are
    recorded only for nonzero timestamps. -/
theorem c10_zero_timestamp_comment :
    (∀ (m : FollowerMap) (e : CommentEntry) (u : PyStr) (d : ContactRecord) (c : CommentsData),
        extract_username_from_comment (fix_double_encoded_unicode e.text) = some u →
        mapLookup m u = some d → d.comments = some c → e.timestamp = 0 →
        mapLookup (processCommentEntry m e) u =
          some { d with comments := some { c with total_comments := c.total_comments + 1 } }) ∧
    (∀ (m : FollowerMap) (e : CommentEntry) (u : PyStr) (d : ContactRecord),
        extract_username_from_comment (fix_double_encoded_unicode e.text) = some u →
        mapLookup m u = some d → d.comments = none → e.timestamp = 0 →
        mapLookup (processCommentEntry m e) u =
          some { d with comments := some { initComments with total_comments := 1 } }) := by
  constructor
  · intro m e u d c hext hlook hcom hts
    simp only [processCommentEntry, hext, hlook]
    rw [mapLookup_mapUpdate_self]
    simp [hlook, commentApply, hcom, hts]
  · intro m e u d hext hlook hcom hts
    simp only [processCommentEntry, hext, hlook]
    rw [mapLookup_mapUpdate_self]
    simp [hlook, commentApply, hcom, hts, initComments]

/-- Comment entry used by concrete witnesses, with a zero timestamp. -/
def witnessZeroComment : CommentEntry := { text := pyOfString "thanks @ann", timestamp := 0 }

/-- Witness for claim C10 at a concrete one entry mapping. -/
theorem c10_zero_timestamp_comment_witness :
    mapLookup (processCommentEntry [(pyOfString "ann", witnessRecord)] witnessZeroComment)
        (pyOfString "ann") =
      some { witnessRecord with comments := some { initComments with total_comments := 1 } } :=
  c10_zero_timestamp_comment.2 [(pyOfString "ann", witnessRecord)] witnessZeroComment
    (pyOfString "ann") witnessRecord (by decide) (by decide) rfl rfl

/-- Lookup after one comment entry that matched an existing record. -/
theorem processCommentEntry_lookup (m : FollowerMap) (e : CommentEntry) (u : PyStr)
    (d : ContactRecord)
    (hext : extract_username_from_comment (fix_double_encoded_unicode e.text) = some u)
    (hlook : mapLookup m u = some d) :
    mapLookup (processCommentEntry m e) u =
      some { d with comments := some (commentApply d e) } := by
  simp only [processCommentEntry, hext, hlook]
  rw [mapLookup_mapUpdate_self]
  simp [hlook]

/-- Comments structure after the first comment with nonzero timestamp on a
    record without prior comment data. -/
def freshCommentsData (text : PyStr) (ts : Nat) : CommentsData :=
  { total_comments := 1, first_comment_timestamp := some ts,
    last_comment_timestamp := some ts, sample_comments := [(text.take 200, ts)] }

/-- Claim C8: two comment entries mentioning the same matched username with
    nonzero timestamps t1 strictly below t2 leave the record, in either
    processing order, with first_comment_timestamp t1, last_comment_timestamp
    t2 and total_comments 2: the strict first and last updates are order
    independent and make the very first timestamp both bounds. -/
theorem c8_comment_order_independence :
    ∀ (m : FollowerMap) (u : PyStr) (d : ContactRecord) (e1 e2 : CommentEntry),
      extract_username_from_comment (fix_double_encoded_unicode e1.text) = some u →
      extract_username_from_comment (fix_double_encoded_unicode e2.text) = some u →
      mapLookup m u = some d → d.comments = none →
      e1.timestamp ≠ 0 → e2.timestamp ≠ 0 → e1.timestamp < e2.timestamp →
      (∃ r c, mapLookup (processCommentEntry (processCommentEntry m e1) e2) u = some r ∧
         r.comments = some c ∧ c.total_comments = 2 ∧
         c.first_comment_timestamp = some e1.timestamp ∧
         c.last_comment_timestamp = some e2.timestamp) ∧
      (∃ r c, mapLookup (processCommentEntry (processCommentEntry m e2) e1) u = some r ∧
         r.comments = some c ∧ c.total_comments = 2 ∧
         c.first_comment_timestamp = some e1.timestamp ∧
         c.last_comment_timestamp = some e2.timestamp) := by
  intro m u d e1 e2 h1 h2 hlook hcom ht1 ht2 hlt
  have hnotlt : ¬ e2.timestamp < e1.timestamp := by omega
  have hgt : e2.timestamp > e1.timestamp := hlt
  have hnotgt : ¬ e1.timestamp > e2.timestamp := by omega
  constructor
  · have l1 := processCommentEntry_lookup m e1 u d h1 hlook
    have l2 := processCommentEntry_lookup (processCommentEntry m e1) e2 u _ h2 l1
    refine ⟨_, _, l2, rfl, ?_, ?_, ?_⟩ <;>
      simp [commentApply, hcom, ht1, ht2, commentTimestampUpdate, initComments, hnotlt, hgt]
  · have l1 := processCommentEntry_lookup m e2 u d h2 hlook
    have l2 := processCommentEntry_lookup (processCommentEntry m e2) e1 u _ h1 l1
    refine ⟨_, _, l2, rfl, ?_, ?_, ?_⟩ <;>
      simp [commentApply, hcom, ht1, ht2, commentTimestampUpdate, initComments, hlt, hnotgt]

/-- Comment entries used by the concrete witness of claim C8. -/
def witnessComment1 : CommentEntry := { text := pyOfString "great @ann", timestamp := 100 }

/-- Second comment entry of the claim C8 witness. -/
def witnessComment2 : CommentEntry := { text := pyOfString "wow @ann", timestamp := 200 }

/-- Witness for claim C8 at a concrete one entry mapping and two entries. -/
theorem c8_comment_order_independence_witness :
    ∃ r c, mapLookup
        (processCommentEntry
          (processCommentEntry [(pyOfString "ann", witnessRecord)] witnessComment1)
          witnessComment2) (pyOfString "ann") = some r ∧
      r.comments = some c ∧ c.total_comments = 2 ∧
      c.first_comment_timestamp = some witnessComment1.timestamp ∧
      c.last_comment_timestamp = some witnessComment2.timestamp :=
  (c8_comment_order_independence [(pyOfString "ann", witnessRecord)] (pyOfString "ann")
    witnessRecord witnessComment1 witnessComment2 (by decide) (by decide) (by decide) rfl
    (by decide) (by decide) (by decide)).1

theorem mapKeys_processCommentEntry (m : FollowerMap) (e : CommentEntry) :
    mapKeys (processCommentEntry m e) = mapKeys m := by
  unfold processCommentEntry
  split
  · rfl
  · split
    · rfl
    · exact mapKeys_mapUpdate m _ _

theorem mapKeys_processInboxConversation (m : FollowerMap) (conv : Conversation) :
    mapKeys (processInboxConversation m conv) = mapKeys m := by
  unfold processInboxConversation
  cases hr : resolveOtherParticipant conv with
  | none => rfl
  | some other =>
    cases hf : findMatchedUsername m (normalize_username other) with
    | none => simp [hf]
    | some p =>
      obtain ⟨mu, d⟩ := p
      by_cases hm : conv.messages = []
      · simp [hf, hm]
      · simp [hf, hm, mapKeys_mapUpdate]

theorem mapKeys_processStoryEntry (k : StoryKind) (m : FollowerMap) (e : StoryEntry) :
    mapKeys (processStoryEntry k m e) = mapKeys m := by
  unfold processStoryEntry
  by_cases hu : normalize_username e.title = []
  · simp [hu]
  · cases hx : mapLookup m (normalize_username e.title) with
    | none => simp [hu, hx]
    | some d => simp [hu, hx, mapKeys_mapUpdate]

theorem mapKeys_processPendingEntry (m : FollowerMap) (v : PyStr) :
    mapKeys (processPendingEntry m v) = mapKeys m := by
  unfold processPendingEntry
  cases hx : mapLookup m (normalize_username v) with
  | none => simp [hx]
  | some d => simp [hx, mapKeys_mapUpdate]

theorem mapKeys_processRecentEntry (m : FollowerMap) (v : PyStr) :
    mapKeys (processRecentEntry m v) = mapKeys m := by
  unfold processRecentEntry
  cases hx : mapLookup m (normalize_username v) with
  | none => simp [hx]
  | some d =>
    cases hs : d.status with
    | none => simp [hx, hs, mapKeys_mapUpdate]
    | some s => simp [hx, hs]

theorem mapKeys_processUnfollowEntry (m : FollowerMap) (v : PyStr) :
    mapKeys (processUnfollowEntry m v) = mapKeys m := by
  unfold processUnfollowEntry
  cases hx : mapLookup m (normalize_username v) with
  | none => simp [hx]
  | some d => simp [hx, mapKeys_mapUpdate]

/-- Claim C4: after the identity loader, the comment, inbox message, story
    interaction, follow request and unfollow enrichers never change the key
    set of the contact mapping on any input — entries for unknown usernames
    are dropped; only the message request enricher can add keys. -/
theorem c4_enrichers_preserve_keys :
    (∀ (m : FollowerMap) (entries : List CommentEntry),
        mapKeys (load_comments m entries) = mapKeys m) ∧
    (∀ (m : FollowerMap) (convs : List Conversation),
        mapKeys (load_messages m convs) = mapKeys m) ∧
    (∀ (m : FollowerMap) (likes emojis countdowns : List StoryEntry),
        mapKeys (load_story_interactions m likes emojis countdowns) = mapKeys m) ∧
    (∀ (m : FollowerMap) (pending recent : List PyStr),
        mapKeys (load_follow_requests m pending recent) = mapKeys m) ∧
    (∀ (m : FollowerMap) (entries : List PyStr),
        mapKeys (load_recently_unfollowed m entries) = mapKeys m) := by
  refine ⟨?_, ?_, ?_, ?_, ?_⟩
  · intro m entries
    exact mapKeys_foldl processCommentEntry mapKeys_processCommentEntry entries m
  · intro m convs
    exact mapKeys_foldl processInboxConversation mapKeys_processInboxConversation convs m
  · intro m likes emojis countdowns
    unfold load_story_interactions
    rw [mapKeys_foldl _ (mapKeys_processStoryEntry StoryKind.countdown),
        mapKeys_foldl _ (mapKeys_processStoryEntry StoryKind.emoji),
        mapKeys_foldl _ (mapKeys_processStoryEntry StoryKind.likes)]
  · intro m pending recent
    unfold load_follow_requests
    rw [mapKeys_foldl _ mapKeys_processRecentEntry, mapKeys_foldl _ mapKeys_processPendingEntry]
  · intro m entries
    exact mapKeys_foldl processUnfollowEntry mapKeys_processUnfollowEntry entries m

/-- Claim C5: infer_discovery_method follows the fixed decision order and
    returns the first applicable result: non follower gives direct_outreach;
    else a falsy follow date gives direct_outreach when the contact
    initiated a conversation and unknown otherwise; else a truthy first
    comment timestamp strictly before the follow date gives
    content_discovery; else a truthy first message timestamp strictly before
    the follow date gives direct_outreach; else an initiated conversation
    gives direct_outreach; else unknown. -/
theorem c5_discovery_method_order :
    (∀ d : ContactRecord, d.is_follower.getD true = false →
        infer_discovery_method d = pyDirectOutreach) ∧
    (∀ d : ContactRecord, d.is_follower.getD true = true → d.follow_date.getD 0 = 0 →
        initiatedTruthy d = true → infer_discovery_method d = pyDirectOutreach) ∧
    (∀ d : ContactRecord, d.is_follower.getD true = true → d.follow_date.getD 0 = 0 →
        initiatedTruthy d = false → infer_discovery_method d = pyUnknown) ∧
    (∀ (d : ContactRecord) (f : Nat), d.is_follower.getD true = true →
        d.follow_date.getD 0 ≠ 0 → commentsFirstTruthy d = some f →
        f < d.follow_date.getD 0 → infer_discovery_method d = pyContentDiscovery) ∧
    (∀ (d : ContactRecord) (g : ℚ), d.is_follower.getD true = true →
        d.follow_date.getD 0 ≠ 0 →
        (∀ f : Nat, commentsFirstTruthy d = some f → ¬ f < d.follow_date.getD 0) →
        messagesFirstTruthy d = some g → g < (d.follow_date.getD 0 : ℚ) →
        infer_discovery_method d = pyDirectOutreach) ∧
    (∀ d : ContactRecord, d.is_follower.getD true = true →
        d.follow_date.getD 0 ≠ 0 →
        (∀ f : Nat, commentsFirstTruthy d = some f → ¬ f < d.follow_date.getD 0) →
        (∀ g : ℚ, messagesFirstTruthy d = some g → ¬ g < (d.follow_date.getD 0 : ℚ)) →
        initiatedTruthy d = true → infer_discovery_method d = pyDirectOutreach) ∧
    (∀ d : ContactRecord, d.is_follower.getD true = true →
        d.follow_date.getD 0 ≠ 0 →
        (∀ f : Nat, commentsFirstTruthy d = some f → ¬ f < d.follow_date.getD 0) →
        (∀ g : ℚ, messagesFirstTruthy d = some g → ¬ g < (d.follow_date.getD 0 : ℚ)) →
        initiatedTruthy d = false → infer_discovery_method d = pyUnknown) := by
  refine ⟨?_, ?_, ?_, ?_, ?_, ?_, ?_⟩
  · intro d h
    simp [infer_discovery_method, h]
  · intro d h1 h2 h3
    simp [infer_discovery_method, h1, h2, inferInitiatedCheck, h3]
  · intro d h1 h2 h3
    simp [infer_discovery_method, h1, h2, inferInitiatedCheck, h3]
  · intro d f h1 h2 hc hlt
    simp [infer_discovery_method, h1, h2, hc, hlt]
  · intro d g h1 h2 hcnot hm hlt
    cases hc : commentsFirstTruthy d with
    | none =>
      simp [infer_discovery_method, h1, h2, hc, inferMessageCheck, hm, hlt]
    | some f =>
      have hnf := hcnot f hc
      simp [infer_discovery_method, h1, h2, hc, hnf, inferMessageCheck, hm, hlt]
  · intro d h1 h2 hcnot hmnot h5
    cases hc : commentsFirstTruthy d with
    | none =>
      cases hm : messagesFirstTruthy d with
      | none =>
        simp [infer_discovery_method, h1, h2, hc, inferMessageCheck, hm, inferInitiatedCheck, h5]
      | some g =>
        have hng := hmnot g hm
        simp [infer_discovery_method, h1, h2, hc, inferMessageCheck, hm, hng,
          inferInitiatedCheck, h5]
    | some f =>
      have hnf := hcnot f hc
      cases hm : messagesFirstTruthy d with
      | none =>
        simp [infer_discovery_method, h1, h2, hc, hnf, inferMessageCheck, hm,
          inferInitiatedCheck, h5]
      | some g =>
        have hng := hmnot g hm
        simp [infer_discovery_method, h1, h2, hc, hnf, inferMessageCheck, hm, hng,
          inferInitiatedCheck, h5]
  · intro d h1 h2 hcnot hmnot h5
    cases hc : commentsFirstTruthy d with
    | none =>
      cases hm : messagesFirstTruthy d with
      | none =>
        simp [infer_discovery_method, h1, h2, hc, inferMessageCheck, hm, inferInitiatedCheck, h5]
      | some g =>
        have hng := hmnot g hm
        simp [infer_discovery_method, h1, h2, hc, inferMessageCheck, hm, hng,
          inferInitiatedCheck, h5]
    | some f =>
      have hnf := hcnot f hc
      cases hm : messagesFirstTruthy d with
      | none =>
        simp [infer_discovery_method, h1, h2, hc, hnf, inferMessageCheck, hm,
          inferInitiatedCheck, h5]
      | some g =>
        have hng := hmnot g hm
        simp [infer_discovery_method, h1, h2, hc, hnf, inferMessageCheck, hm, hng,
          inferInitiatedCheck, h5]

/-- Non follower record exercising the first clause of claim C5. -/
def c5NonFollower : ContactRecord := { witnessRecord with is_follower := some false }

/-- Witness for claim C5: a non follower is classified as direct outreach. -/
theorem c5_discovery_method_order_witness :
    infer_discovery_method c5NonFollower = pyDirectOutreach :=
  c5_discovery_method_order.1 c5NonFollower rfl

theorem msgDatesStep_fields (ms : MessagesData) (msg : Message) :
    (msgDatesStep ms msg).message_request_count = ms.message_request_count ∧
    (msgDatesStep ms msg).initiated_conversation = ms.initiated_conversation ∧
    (msgDatesStep ms msg).message_count = ms.message_count ∧
    (msgDatesStep ms msg).has_messaged = ms.has_messaged := by
  unfold msgDatesStep
  by_cases hz : msg.timestamp_ms ≠ 0 <;> simp [hz]

theorem foldl_msgDatesStep_fields (msgs : List Message) :
    ∀ ms : MessagesData,
      (msgs.foldl msgDatesStep ms).message_request_count = ms.message_request_count ∧
      (msgs.foldl msgDatesStep ms).initiated_conversation = ms.initiated_conversation ∧
      (msgs.foldl msgDatesStep ms).message_count = ms.message_count ∧
      (msgs.foldl msgDatesStep ms).has_messaged = ms.has_messaged := by
  induction msgs with
  | nil => intro ms; exact ⟨rfl, rfl, rfl, rfl⟩
  | cons msg tl ih =>
    intro ms
    rw [List.foldl_cons]
    obtain ⟨i1, i2, i3, i4⟩ := ih (msgDatesStep ms msg)
    obtain ⟨s1, s2, s3, s4⟩ := msgDatesStep_fields ms msg
    exact ⟨i1.trans s1, i2.trans s2, i3.trans s3, i4.trans s4⟩

/-- Claim C3: a message request conversation whose resolved participant
    handle matches no existing record (neither exactly nor by substring)
    and whose message list is nonempty makes the enricher create a new
    record keyed by the normalized handle, with is_follower false, status
    message_request_only, a profile URL synthesized from the normalized
    handle, and message_request_count equal to the number of messages. -/
theorem c3_message_request_creates_record :
    ∀ (m : FollowerMap) (conv : Conversation) (other : PyStr),
      resolveOtherParticipant conv = some other →
      findMatchedUsername m (normalize_username other) = none →
      conv.messages ≠ [] →
      ∃ r ms, mapLookup (processMessageRequest m conv) (normalize_username other) = some r ∧
        r.is_follower = some false ∧
        r.status = some pyMessageRequestOnly ∧
        r.profile_url = pyInstagramUrl ++ normalize_username other ∧
        r.messages = some ms ∧
        ms.message_request_count = some conv.messages.length ∧
        ms.message_count = conv.messages.length ∧
        ms.initiated_conversation = true := by
  intro m conv other hres hmatch hne
  simp only [processMessageRequest, hres, hmatch, if_neg hne]
  rw [mapLookup_mapInsert_self]
  refine ⟨_, _, rfl, rfl, rfl, rfl, rfl, ?_, ?_, ?_⟩
  · simpa using (foldl_msgDatesStep_fields conv.messages _).1
  · simpa using (foldl_msgDatesStep_fields conv.messages _).2.2.1
  · simpa using (foldl_msgDatesStep_fields conv.messages _).2.1

/-- Concrete message request conversation from an unknown handle. -/
def c3Conv : Conversation :=
  { participants := [pyOfString "Bob"],
    messages := [{ sender_name := pyOfString "Bob", timestamp_ms := 5000 }],
    folder_name := pyOfString "bob_123" }

/-- Witness for claim C3 at a concrete mapping and conversation. -/
theorem c3_message_request_creates_record_witness :
    ∃ r ms, mapLookup (processMessageRequest [(pyOfString "ann", witnessRecord)] c3Conv)
        (normalize_username (pyOfString "Bob")) = some r ∧
      r.is_follower = some false ∧
      r.status = some pyMessageRequestOnly ∧
      r.profile_url = pyInstagramUrl ++ normalize_username (pyOfString "Bob") ∧
      r.messages = some ms ∧
      ms.message_request_count = some c3Conv.messages.length ∧
      ms.message_count = c3Conv.messages.length ∧
      ms.initiated_conversation = true :=
  c3_message_request_creates_record [(pyOfString "ann", witnessRecord)] c3Conv
    (pyOfString "Bob") (by decide) (by decide) (by decide)

/-- Last comment timestamp as the specification formula reads it, without
    the truthiness of the source guard. Stated from the spec for comparison. -/
def specLastCommentTs (d : ContactRecord) : Option Nat :=
  match d.comments with
  | none => none
  | some c => c.last_comment_timestamp

/-- Last message timestamp as the specification formula reads it. -/
def specLastMessageTs (d : ContactRecord) : Option ℚ :=
  match d.messages with
  | none => none
  | some ms => ms.last_message_timestamp

/-- Engagement score exactly as claim C1 words it: comments times two,
    messages times three with a five point initiation bonus, story
    interactions times one, plus independent additive recency bonuses for
    the last comment and the last message, rounded to two decimals. Stated
    from the spec for comparison with the source function. -/
def engagementScoreSpec (d : ContactRecord) (now : ℚ) : ℚ :=
  let s_comments : ℚ := match d.comments with
    | none => 0
    | some c => (c.total_comments : ℚ) * 2
  let s_messages : ℚ := match d.messages with
    | none => 0
    | some ms => (ms.message_count : ℚ) * 3 + (if ms.initiated_conversation then 5 else 0)
  let s_story : ℚ := match d.story_interactions with
    | none => 0
    | some st => (st.story_likes_count : ℚ) * 1 + (st.emoji_reactions_count : ℚ) * 1 +
        (st.countdown_interactions_count : ℚ) * 1
  roundTo2 (s_comments + s_messages + s_story +
    recencyBonus now ((specLastCommentTs d).map (fun t => (t : ℚ))) +
    recencyBonus now (specLastMessageTs d))

/-- Stored last interaction timestamps are genuine, that is nonzero: the
    invariant the enrichers maintain, since a timestamp is only ever stored
    after passing a Python truthiness test. -/
def storedTimestampsNonzero (d : ContactRecord) : Prop :=
  (match d.comments with
   | none => True
   | some c => c.last_comment_timestamp ≠ some 0) ∧
  (match d.messages with
   | none => True
   | some ms => ms.last_message_timestamp ≠ some 0)

theorem commentsLastTruthy_eq_spec (d : ContactRecord)
    (h : match d.comments with
         | none => True
         | some c => c.last_comment_timestamp ≠ some 0) :
    commentsLastTruthy d = specLastCommentTs d := by
  unfold commentsLastTruthy specLastCommentTs
  cases hc : d.comments with
  | none => rfl
  | some c =>
    rw [hc] at h
    have h2 : c.last_comment_timestamp ≠ some 0 := by simpa using h
    cases hl : c.last_comment_timestamp with
    | none => simp [hl]
    | some t =>
      have ht : t ≠ 0 := fun hh => h2 (by rw [hl, hh])
      simp [hl, ht]

theorem messagesLastTruthy_eq_spec (d : ContactRecord)
    (h : match d.messages with
         | none => True
         | some ms => ms.last_message_timestamp ≠ some 0) :
    messagesLastTruthy d = specLastMessageTs d := by
  unfold messagesLastTruthy specLastMessageTs
  cases hc : d.messages with
  | none => rfl
  | some ms =>
    rw [hc] at h
    have h2 : ms.last_message_timestamp ≠ some 0 := by simpa using h
    cases hl : ms.last_message_timestamp with
    | none => simp [hl]
    | some t =>
      have ht : t ≠ 0 := fun hh => h2 (by rw [hl, hh])
      simp [hl, ht]

/-- Comments part of the claim C1 example: three comments, the last one
    ten days before the example wall clock value 1000000000. -/
def c1Comments : CommentsData :=
  { total_comments := 3, first_comment_timestamp := some 999136000,
    last_comment_timestamp := some 999136000, sample_comments := [] }

/-- Messages part of the claim C1 example: one initiating message sent
    forty days before the example wall clock value. -/
def c1Messages : MessagesData :=
  { has_messaged := true, message_count := 1, first_message_timestamp := some 996544000,
    last_message_timestamp := some 996544000, initiated_conversation := true,
    message_request_count := none }

/-- Story part of the claim C1 example: two story likes. -/
def c1Story : StoryData :=
  { story_likes_count := 2, emoji_reactions_count := 0,
    countdown_interactions_count := 0, last_story_interaction_timestamp := none }

/-- The concrete record of the claim C1 example. -/
def c1ExampleRecord : ContactRecord :=
  { username := pyOfString "ann", profile_url := [], follow_date := some 1,
    is_follower := none, status := none, comments := some c1Comments,
    messages := some c1Messages, story_interactions := some c1Story }

theorem roundTo2_31 : roundTo2 (31 : ℚ) = 31 := by
  unfold roundTo2
  rw [show ((31 : ℚ) * 100) = (((3100 : ℤ)) : ℚ) by norm_num]
  rw [round_intCast]
  norm_num

/-- Claim C1: the engagement score is the sum the specification describes
    (for records whose stored last timestamps are genuine, as the pipeline
    produces them), and the concrete example record — three comments with
    the last ten days old, one initiating message forty days old, two story
    likes — scores exactly 31. -/
theorem c1_engagement_score :
    (∀ (d : ContactRecord) (now : ℚ), storedTimestampsNonzero d →
        calculate_engagement_score d now = engagementScoreSpec d now) ∧
    calculate_engagement_score c1ExampleRecord 1000000000 = 31 := by
  constructor
  · intro d now hwf
    obtain ⟨h1, h2⟩ := hwf
    unfold calculate_engagement_score engagementScoreSpec
    rw [commentsLastTruthy_eq_spec d h1, messagesLastTruthy_eq_spec d h2]
  · have hc : commentsLastTruthy c1ExampleRecord = some 999136000 := rfl
    have hm : messagesLastTruthy c1ExampleRecord = some 996544000 := rfl
    have h1 : calculate_engagement_score c1ExampleRecord 1000000000 = roundTo2 31 := by
      unfold calculate_engagement_score
      rw [hc, hm]
      norm_num [c1ExampleRecord, c1Comments, c1Messages, c1Story, recencyBonus]
    rw [h1, roundTo2_31]

/-- Witness for claim C1: the specification formula applied at the example
    record, whose stored timestamps are genuine. -/
theorem c1_engagement_score_witness :
    calculate_engagement_score c1ExampleRecord 1000000000 =
      engagementScoreSpec c1ExampleRecord 1000000000 :=
  c1_engagement_score.1 c1ExampleRecord 1000000000 (by constructor <;> simp [c1ExampleRecord, c1Comments, c1Messages])

/-- Counterexample for claim C6: on the two character input 0xC2 0x80 the
    repaired string is the single character 0x80, which still lies in the
    mojibake range 0x80 to 0xBF and contains no Cyrillic, so the claim
    demands the input be returned unchanged — yet the source accepts the
    repair, because its re-check only looks at the 0xD0 to 0xDF range. -/
theorem c6_mojibake_counterexample :
    fix_double_encoded_unicode [0xC2, 0x80] = [0x80] ∧
    ¬ fix_double_encoded_unicode [0xC2, 0x80] = [0xC2, 0x80] ∧
    ([0x80] : PyStr).any isMojibakeLow = true ∧
    ([0x80] : PyStr).any isCyrillic = false := by
  refine ⟨by decide, by decide, by decide, by decide⟩

/-- Claim C6 (amended): whenever the repair routine returns anything other
    than its input, the result is the UTF-8 decoding of the reinterpreted
    byte sequence and it either contains Cyrillic characters or (no
    characters in the range 0xD0 to 0xDF remain — the 0x80 to 0xBF range is
    not re-checked — and the flagged character count exceeded twenty percent
    of the string length); the mis-mapped bytes of the Cyrillic letter pe
    are repaired to that letter, and plain ASCII input is returned
    unchanged. -/
theorem c6_mojibake_repair_amended :
    (∀ text : PyStr, fix_double_encoded_unicode text = text ∨
      ∃ bs fixed, buildByteSequence text = some bs ∧ utf8Decode bs = some fixed ∧
        fix_double_encoded_unicode text = fixed ∧
        (fixed.any isCyrillic = true ∨
          (fixed.any isMojibakeHigh = false ∧
            5 * (text.filter isProblematic).length > text.length))) ∧
    fix_double_encoded_unicode [0xD0, 0xBF] = [0x43F] ∧
    (∀ text : PyStr, text.all (fun c => decide (c < 0x80)) = true →
      fix_double_encoded_unicode text = text) := by
  refine ⟨?_, by decide, ?_⟩
  · intro text
    simp only [fix_double_encoded_unicode]
    split
    · exact Or.inl rfl
    · split
      · exact Or.inl rfl
      · split
        · split
          · exact Or.inl rfl
          · rename_i bs hbs
            split
            · exact Or.inl rfl
            · rename_i fixed hdec
              split
              · rename_i hcond
                refine Or.inr ⟨bs, fixed, hbs, hdec, rfl, ?_⟩
                simpa [Bool.or_eq_true, Bool.and_eq_true, decide_eq_true_iff] using hcond
              · exact Or.inl rfl
        · exact Or.inl rfl
  · intro text h
    have hall : ∀ c ∈ text, c < 0x80 := by simpa using h
    have h1 : text.any isMojibakeHigh = false := by
      rw [List.any_eq_false]
      intro c hc
      have := hall c hc
      simp [isMojibakeHigh]
      omega
    have h2 : text.any isMojibakeLow = false := by
      rw [List.any_eq_false]
      intro c hc
      have := hall c hc
      simp [isMojibakeLow]
      omega
    simp only [fix_double_encoded_unicode]
    split
    · rfl
    · simp [h1, h2]

/-- Witness for claim C6: the ASCII clause applied at a concrete string. -/
theorem c6_mojibake_repair_amended_witness :
    fix_double_encoded_unicode (pyOfString "hello") = pyOfString "hello" :=
  c6_mojibake_repair_amended.2.2 (pyOfString "hello") (by decide)
